import Mathlib

/-!
Shallow embedding of the Blottata ingestion-validation-publish-archive
pipeline of this repository.

Sources embedded:
- src/unnamed/part_003 (blottataDriveMonitor): in-memory + Firestore dedup
  store (isFileProcessed / markFileAsProcessed), processNewFilesForChannel,
  processBlottataTick.
- src/backend/src/services/blottataFileProcessor.ts: cleanFolderId,
  validateFileBeforeBlottata, processBlottataFile, moveFileToArchive.
- src/backend/src/utils/serializeError.ts: serializeError / cleanObject.
- src/backend/src/services/errorLogger.ts: logError.

External effects (Google Drive, the Blottata publisher, OpenAI generation,
Firestore availability) are modelled as explicit oracle inputs; functions
that can throw in TypeScript are embedded with Except, and each try/catch
of the source becomes an explicit match on the Except value.  JavaScript
truthiness on optional strings and numbers is modelled explicitly.
-/

/-- JavaScript `a || b` for an optional string: the default is used when the
value is absent or the empty string (both falsy in JS). -/
def jsOrElse (o : Option String) (d : String) : String :=
  match o with
  | none => d
  | some s => if s = "" then d else s

/-- JavaScript `s || d` on a plain string (empty string is falsy). -/
def jsOrS (s d : String) : String :=
  if s = "" then d else s

/-- JavaScript truthiness of an optional string field (`!x` is true when the
field is absent or the empty string). -/
def strFalsy (o : Option String) : Bool :=
  match o with
  | none => true
  | some s => s = ""

/-- JavaScript `String.prototype.startsWith`, as a character-list prefix
test (kept explicit so concrete evaluation reduces in the kernel). -/
def strStartsWith (s pre : String) : Bool :=
  pre.data.isPrefixOf s.data

/-- JavaScript `String.prototype.includes`: true when `sub` occurs as a
contiguous substring of `s`. -/
def strContains (s sub : String) : Bool :=
  (List.range (s.data.length + 1)).any fun i => sub.data.isPrefixOf (s.data.drop i)

/-! ## Dedup store (src/unnamed/part_003, lines 12-83)

The store is the in-memory `processedFiles` Map plus the Firestore
collection `blottataProcessedFiles`.  Both are association lists from the
memory key to the stored `processedAt` timestamp (the Firestore document
also stores channelId, fileId and an ISO string, which no reader consults,
so the embedding keeps only `processedAt`).  Firestore availability and
per-operation success are oracle flags. -/

abbrev KvMap := List (String × Nat)

/-- Lookup in an association list (Map.get / Firestore document read). -/
def kvLookup (m : KvMap) (k : String) : Option Nat :=
  (m.find? fun p => p.1 = k).map (·.2)

/-- Overwriting insert (Map.set / Firestore doc.set). -/
def kvInsert (m : KvMap) (k : String) (v : Nat) : KvMap :=
  if (m.find? fun p => p.1 = k).isSome then
    m.map fun p => if p.1 = k then (k, v) else p
  else
    m ++ [(k, v)]

structure DedupState where
  processedFiles : KvMap
  firestoreDocs : KvMap
deriving DecidableEq, Repr

/-- Oracle flags for the Firestore collaborator: `available` is
isFirestoreAvailable() && db, `readOk` / `writeOk` say whether the get /
set call succeeds (false = the call throws and the catch branch runs). -/
structure FirestoreBehavior where
  available : Bool
  readOk : Bool
  writeOk : Bool
deriving DecidableEq, Repr

/-- The memory key used by the dedup store (part_003 line 19). -/
def memoryKey (channelId fileId : String) : String :=
  channelId ++ ":" ++ fileId

/-- isFileProcessed (part_003 lines 17-51): memory first; on a miss, read
the Firestore document when available, cache a truthy processedAt and
return true; a failed read is caught and processing continues, returning
false.  Returns the answer and the updated in-memory cache state. -/
def isFileProcessed (fb : FirestoreBehavior) (st : DedupState)
    (channelId fileId : String) : Bool × DedupState :=
  let k := memoryKey channelId fileId
  if (kvLookup st.processedFiles k).isSome then
    (true, st)
  else if fb.available then
    if fb.readOk then
      match kvLookup st.firestoreDocs k with
      | some t =>
        -- the source tests `if (data?.processedAt)`: a zero timestamp is
        -- falsy in JS and falls through to `return false`
        if t ≠ 0 then
          (true, { st with processedFiles := kvInsert st.processedFiles k t })
        else
          (false, st)
      | none => (false, st)
    else
      (false, st)
  else
    (false, st)

/-- markFileAsProcessed (part_003 lines 56-83): always writes the in-memory
map; writes the Firestore document only when Firestore is available, and a
failed write is caught (warning logged) and swallowed. -/
def markFileAsProcessed (fb : FirestoreBehavior) (st : DedupState)
    (channelId fileId : String) (now : Nat) : DedupState :=
  let k := memoryKey channelId fileId
  let st1 := { st with processedFiles := kvInsert st.processedFiles k now }
  if fb.available then
    if fb.writeOk then
      { st1 with firestoreDocs := kvInsert st1.firestoreDocs k now }
    else
      st1
  else
    st1

/-! ## JSON-like values and serializeError
(src/backend/src/utils/serializeError.ts) -/

/-- A JSON-like value, the shape of error detail payloads. -/
inductive JVal where
  | null
  | bool (b : Bool)
  | num (n : Int)
  | str (s : String)
  | arr (elems : List JVal)
  | obj (fields : List (String × JVal))

/-- JavaScript truthiness of a JVal (objects and arrays are truthy). -/
def jsTruthy : JVal → Bool
  | .null => false
  | .bool b => b
  | .num n => n ≠ 0
  | .str s => s ≠ ""
  | .arr _ => true
  | .obj _ => true

/-- JS `typeof v === "object" && v !== null`: objects and arrays. -/
def isObjectLike : JVal → Bool
  | .arr _ => true
  | .obj _ => true
  | _ => false

/-- Field lookup in an object field list. -/
def getField (fs : List (String × JVal)) (k : String) : Option JVal :=
  (fs.find? fun p => p.1 = k).map (·.2)

/-- `v?.k`: the field when `v` is an object and has it, otherwise absent
(JS undefined). -/
def getFieldOpt (v : JVal) (k : String) : Option JVal :=
  match v with
  | .obj fs => getField fs k
  | _ => none

/-- Truthiness of `v.k` (absent fields are falsy). -/
def fieldTruthy (v : JVal) (k : String) : Bool :=
  match getFieldOpt v k with
  | some x => jsTruthy x
  | none => false

/-- JS `String(v)` for the values that reach it in serializeError; the
stringification of compound values is abstracted (it never feeds a claim). -/
def jsToString : JVal → String
  | .null => "null"
  | .bool b => if b then "true" else "false"
  | .num n => toString n
  | .str s => s
  | .arr _ => "[array]"
  | .obj _ => "[object Object]"

/-- The sensitive-term list of serializeError.ts line 44. -/
def sensitiveKeys : List String :=
  ["password", "token", "secret", "key", "auth", "authorization"]

/-- JS String.prototype.toLowerCase, character by character (kept as an
explicit map so concrete evaluation reduces in the kernel). -/
def strToLower (s : String) : String :=
  String.mk (s.data.map Char.toLower)

/-- serializeError.ts lines 56-57: the lowercased key contains one of the
sensitive terms. -/
def isSensitiveKey (k : String) : Bool :=
  sensitiveKeys.any fun sk => strContains (strToLower k) sk

mutual

/-- cleanObject (serializeError.ts lines 45-66): non-objects (and null) are
returned as-is, arrays are mapped, and in an object every field whose key
matches a sensitive term becomes "[REDACTED]", object-valued fields are
cleaned recursively, other fields are kept. -/
def cleanObject : JVal → JVal
  | .arr xs => .arr (cleanObjectList xs)
  | .obj fs => .obj (cleanObjectFields fs)
  | v => v
termination_by structural v => v

def cleanObjectList : List JVal → List JVal
  | [] => []
  | x :: xs => cleanObject x :: cleanObjectList xs
termination_by structural l => l

def cleanObjectFields : List (String × JVal) → List (String × JVal)
  | [] => []
  | (k, v) :: fs =>
    (if isSensitiveKey k then (k, JVal.str "[REDACTED]")
     else if isObjectLike v then (k, cleanObject v)
     else (k, v)) :: cleanObjectFields fs
termination_by structural l => l

end

/-- An optional field of the serialized object: a field whose value is JS
undefined is dropped (undefined fields are not persisted). -/
def optField (k : String) (o : Option JVal) : List (String × JVal) :=
  match o with
  | some v => [(k, v)]
  | none => []

/-- serializeError (serializeError.ts lines 5-69).  `devMode` is
NODE_ENV === "development" || LOG_STACK_TRACES === "true".  A falsy input
becomes null; an object with no truthy stack and no truthy message is
treated as already serialized and returned AS-IS (no redaction); otherwise
an Error-shaped object is extracted field by field and cleaned. -/
def serializeError (error : JVal) (devMode : Bool) : JVal :=
  if ¬ jsTruthy error then
    JVal.null
  else if isObjectLike error ∧ ¬ fieldTruthy error "stack" ∧ ¬ fieldTruthy error "message" then
    error
  else
    let msg : JVal :=
      match getFieldOpt error "message" with
      | some m => if jsTruthy m then m else JVal.str (jsToString error)
      | none => JVal.str (jsToString error)
    let base :=
      [("message", msg)]
      ++ optField "name" (getFieldOpt error "name")
      ++ optField "code" (getFieldOpt error "code")
      ++ optField "className" (getFieldOpt error "className")
      ++ optField "error_code" (getFieldOpt error "error_code")
      ++ optField "error_message" (getFieldOpt error "error_message")
      ++ (if devMode then optField "stack" (getFieldOpt error "stack") else [])
      ++ (match getFieldOpt error "response" with
          | some r =>
            if jsTruthy r then
              [("response", JVal.obj
                (optField "status" (getFieldOpt r "status")
                  ++ optField "statusText" (getFieldOpt r "statusText")
                  ++ optField "data" (getFieldOpt r "data")))]
            else []
          | none => [])
      ++ (match getFieldOpt error "errors" with
          | some es => if jsTruthy es then [("errors", es)] else []
          | none => [])
  cleanObject (JVal.obj base)

/-! ## Error Sink (src/backend/src/services/errorLogger.ts, logError) -/

/-- The LogErrorOptions argument of logError (types/errorLog.ts shape
restricted to the fields logError reads). -/
structure LogErrorOptions where
  userId : String
  channelId : Option String
  channelName : Option String
  source : String
  severity : Option String
  code : String
  message : String
  details : Option JVal

/-- One persisted errorLogs document (the Omit ErrorLog id record built by
logError; createdAt is abstracted away, resolved is always false). -/
structure StoredErrorLog where
  userId : String
  channelId : Option String
  channelName : Option String
  source : String
  severity : String
  code : String
  message : String
  details : Option JVal
  resolved : Bool

/-- Oracle flags for the Error Sink store: `available` models
isFirestoreAvailable() && db, `writeOk` whether collection add succeeds. -/
structure SinkWorld where
  available : Bool
  writeOk : Bool
deriving DecidableEq, Repr

/-- The record logError builds (errorLogger.ts lines 20-31): severity
defaults to "error", details are passed through serializeError when
present. -/
def mkStoredErrorLog (devMode : Bool) (opts : LogErrorOptions) : StoredErrorLog :=
  { userId := opts.userId
    channelId := opts.channelId
    channelName := opts.channelName
    source := opts.source
    severity := jsOrElse opts.severity "error"
    code := opts.code
    message := opts.message
    details := opts.details.map fun d => serializeError d devMode
    resolved := false }

/-- The try-block body of logError: returns without writing when Firestore
is unavailable; otherwise the collection add can throw. -/
def logErrorBody (w : SinkWorld) (devMode : Bool) (opts : LogErrorOptions)
    (store : List StoredErrorLog) : Except String (List StoredErrorLog) :=
  if ¬ w.available then
    .ok store
  else if w.writeOk then
    .ok (store ++ [mkStoredErrorLog devMode opts])
  else
    .error "Failed to log error to database"

/-- logError (errorLogger.ts lines 10-50): the whole body is wrapped in a
try/catch whose catch only logs locally and returns, so the call never
propagates a failure to its caller. -/
def logError (w : SinkWorld) (devMode : Bool) (opts : LogErrorOptions)
    (store : List StoredErrorLog) : Except String (List StoredErrorLog) :=
  match logErrorBody w devMode opts store with
  | .ok s => .ok s
  | .error _ => .ok store

/-! ## File processor (src/backend/src/services/blottataFileProcessor.ts)

The Drive metadata record, the channel configuration, and the external
calls (Drive get, OpenAI generation, the Blottata publisher, the archive
move) are oracle inputs of one item's processing.  The processor emits a
trace of the externally visible pipeline events (the publish fan-out call,
the archive move attempt, dedup writes, Error Sink writes). -/

/-- The subset of the Drive file metadata the processor reads
(fields id, name, mimeType, size, webContentLink).  Absent fields are JS
undefined. -/
structure FileMeta where
  id : Option String
  name : Option String
  mimeType : Option String
  size : Option Nat
  webContentLink : Option String
deriving DecidableEq, Repr

/-- The channel configuration fields the pipeline reads.  The nine
per-platform Blottata account ids only feed log payloads (the `platforms`
array of some Error Sink details) and are not modelled. -/
structure Channel where
  id : String
  name : String
  blotataEnabled : Bool
  driveInputFolderId : Option String
  driveArchiveFolderId : Option String
deriving DecidableEq, Repr

/-- One per-target outcome returned by
blottataPublisherService.publishToAllPlatforms. -/
structure PlatformResult where
  platform : String
  success : Bool
  error : Option String
deriving DecidableEq, Repr

/-- The ProcessedFile result record of processBlottataFile. -/
structure ProcessedFile where
  fileId : String
  fileName : String
  success : Bool
  publishedPlatforms : List String
  errors : List String
deriving DecidableEq, Repr

/-- Projection of one logError call made by the processor: severity, code
and the `reason` field of the details payload (the full payloads carry
only diagnostic context). -/
structure SinkEntry where
  severity : String
  code : String
  reason : Option String
deriving DecidableEq, Repr

/-- Externally visible pipeline events, in execution order. -/
inductive Event where
  | publishCall
  | archiveAttempt
  | markProcessed (channelId fileId : String)
  | sinkWrite (e : SinkEntry)
deriving DecidableEq, Repr

/-- An exception raised by the Blottata publisher call, as the processor
inspects it (message text and optional HTTP response status). -/
structure PublishError where
  message : String
  status : Option Nat
deriving DecidableEq, Repr

/-- Oracle for the external calls made while processing one item:
the Drive files.get metadata, the title/description generation, the
publisher fan-out, and the archive move (moveFileToArchive), each of which
can throw. -/
structure ItemWorld where
  meta : Except String FileMeta
  genResult : Except String (String × String)
  publishOutcome : Except PublishError (List PlatformResult)
  archiveMove : Except String Unit

/-- cleanFolderId (blottataFileProcessor.ts lines 21-30): strips a URL
query suffix, keeping the part before the first question mark. -/
def cleanFolderId (folderId : String) : String :=
  String.mk (folderId.data.takeWhile fun c => c ≠ '?')

/-- The reason code and Error Sink entry of each precondition failure; the
shared machine code of all three entries (INVALID_MEDIA_BEFORE_BLOTTATA). -/
def invalidMediaCode : String := "INVALID_MEDIA_BEFORE_BLOTTATA"

/-- The human reason text of precheck failure 1 (file not found). -/
def reasonNotFoundText : String := "Файл не найден в Google Drive"

/-- The human reason text of precheck failure 2 (empty file). -/
def reasonEmptyText : String := "Файл пустой (размер 0 байт)"

/-- The human reason text of precheck failure 3 (not a video); the source
appends the mime type. -/
def reasonNotVideoText (mimeType : String) : String :=
  "Файл не является видео: " ++ mimeType

/-- The result record of validateFileBeforeBlottata. -/
structure PrecheckResult where
  valid : Bool
  reason : Option String
deriving DecidableEq, Repr

/-- validateFileBeforeBlottata (blottataFileProcessor.ts lines 36-153):
three checks in order, short-circuiting on the first failure —
(1) the metadata resolves and has a truthy id, (2) size is non-zero,
(3) the mime type starts with "video/".  Each failure writes one
warning-severity Error Sink entry with machine code
INVALID_MEDIA_BEFORE_BLOTTATA and a distinct details.reason
(file_not_found / empty_file / not_video), then returns invalid.
Returns the precheck result and the Error Sink entries written. -/
def validateFileBeforeBlottata (fileMeta : Option FileMeta) :
    PrecheckResult × List SinkEntry :=
  match fileMeta with
  | none =>
    (⟨false, some reasonNotFoundText⟩,
      [⟨"warning", invalidMediaCode, some "file_not_found"⟩])
  | some m =>
    if strFalsy m.id then
      (⟨false, some reasonNotFoundText⟩,
        [⟨"warning", invalidMediaCode, some "file_not_found"⟩])
    else
      -- `const fileSize = fileMeta.size ? Number(fileMeta.size) : 0`
      let fileSize := m.size.getD 0
      if fileSize = 0 then
        (⟨false, some reasonEmptyText⟩,
          [⟨"warning", invalidMediaCode, some "empty_file"⟩])
      else
        let mimeType := m.mimeType.getD ""
        if ¬ strStartsWith mimeType "video/" then
          (⟨false, some (reasonNotVideoText mimeType)⟩,
            [⟨"warning", invalidMediaCode, some "not_video"⟩])
        else
          (⟨true, none⟩, [])

/-- JS `userId && userId !== "unknown"` (the guard on the non-precheck
Error Sink writes of processBlottataFile). -/
def userIdKnown (userId : Option String) : Bool :=
  match userId with
  | none => false
  | some u => u ≠ "" ∧ u ≠ "unknown"

/-- The media-upload-failure test of the publisher-call catch
(blottataFileProcessor.ts lines 267-272). -/
def isMediaUploadError (msg : String) (status : Option Nat) : Bool :=
  strContains msg "BLOTTATA_MEDIA_UPLOAD_FAILED" ||
  strContains msg "BLOTATA_MEDIA_UPLOAD_FAILED" ||
  strContains msg "Failed to read media metadata" ||
  strContains msg "Is the file accessible and a valid media file" ||
  status == some 500

/-- The media-upload-failure test of the outer catch
(blottataFileProcessor.ts lines 430-433). -/
def isMediaUploadErrorOuter (msg : String) : Bool :=
  strContains msg "BLOTTATA_MEDIA_UPLOAD_FAILED" ||
  strContains msg "BLOTATA_MEDIA_UPLOAD_FAILED" ||
  strContains msg "Failed to read media metadata"

/-- What a throw inside the try block of processBlottataFile carries to the
outer catch: the error message, the result record as mutated so far, and
the events already performed. -/
structure ThrowInfo where
  message : String
  resultSoFar : ProcessedFile
  events : List Event

/-- The try-block body of processBlottataFile (blottataFileProcessor.ts
lines 174-410): fetch metadata, run the precheck (returning early without
any publish call when invalid), require a public link, generate the
title/description, fan out to the publisher, aggregate per-target
outcomes (overall success iff at least one target succeeded), throw when
all targets failed, and otherwise attempt the archive move when both
folders are configured, swallowing a move failure (appending its message
to the error list only when that list is empty). -/
def processBlottataFileBody (channel : Channel) (fileId : String)
    (userId : Option String) (w : ItemWorld) :
    Except ThrowInfo (ProcessedFile × List Event) :=
  let r0 : ProcessedFile := ⟨fileId, "", false, [], []⟩
  match w.meta with
  | .error e => .error ⟨e, r0, []⟩
  | .ok fileMeta =>
    let r1 := { r0 with fileName := jsOrElse fileMeta.name "unknown" }
    let pre := validateFileBeforeBlottata (some fileMeta)
    let preEvents := pre.2.map Event.sinkWrite
    if ¬ pre.1.valid then
      .ok ({ r1 with
        errors := [jsOrElse pre.1.reason "Файл не прошёл предварительную проверку"] },
        preEvents)
    else if strFalsy fileMeta.webContentLink then
      .error ⟨"File does not have webContentLink. Make sure the file is shared publicly.",
        r1, preEvents⟩
    else
      match w.genResult with
      | .error e => .error ⟨e, r1, preEvents⟩
      | .ok _titleAndDescription =>
        let evs := preEvents ++ [Event.publishCall]
        match w.publishOutcome with
        | .error pe =>
          -- the publisher-call catch logs the media-upload class and rethrows
          let sinkEvs :=
            if isMediaUploadError pe.message pe.status ∧ userIdKnown userId then
              [Event.sinkWrite ⟨"error", "BLOTTATA_MEDIA_UPLOAD_FAILED", none⟩]
            else []
          .error ⟨pe.message, r1, evs ++ sinkEvs⟩
        | .ok publishResults =>
          let successfulPlatforms := (publishResults.filter (·.success)).map (·.platform)
          let perTargetErrors := (publishResults.filter fun r => ¬ r.success).map
            fun r => r.platform ++ ": " ++ jsOrElse r.error "Unknown error"
          let r2 := { r1 with
            publishedPlatforms := successfulPlatforms
            errors := perTargetErrors
            success := ¬ successfulPlatforms.isEmpty }
          if successfulPlatforms.isEmpty then
            .error ⟨"All platforms failed: " ++ String.intercalate "; " perTargetErrors,
              r2, evs⟩
          else
            -- folder ids are cleaned of URL query suffixes; a falsy raw id
            -- or a cleaned-to-empty id counts as not configured
            let inputFolderId := if strFalsy channel.driveInputFolderId then none
              else some (cleanFolderId (channel.driveInputFolderId.getD ""))
            let archiveFolderId := if strFalsy channel.driveArchiveFolderId then none
              else some (cleanFolderId (channel.driveArchiveFolderId.getD ""))
            if strFalsy inputFolderId ∨ strFalsy archiveFolderId then
              .ok (r2, evs)
            else
              let evs := evs ++ [Event.archiveAttempt]
              match w.archiveMove with
              | .ok _ => .ok (r2, evs)
              | .error moveMsg =>
                let r3 := if r2.errors.isEmpty then
                    { r2 with errors :=
                      ["Archive move failed: " ++ jsOrS moveMsg "Unknown error"] }
                  else r2
                .ok (r3, evs)

/-- processBlottataFile (blottataFileProcessor.ts lines 161-459): the body
above wrapped in the outer catch, which marks the result failed, appends
the error message, writes a BLOTTATA_FILE_PROCESSING_FAILED Error Sink
entry when the caller passed a known userId and the failure is neither a
precheck failure nor a media-upload failure, and returns the result. -/
def processBlottataFile (channel : Channel) (fileId : String)
    (userId : Option String) (w : ItemWorld) : ProcessedFile × List Event :=
  match processBlottataFileBody channel fileId userId w with
  | .ok r => r
  | .error t =>
    let sinkEvs :=
      if userIdKnown userId ∧ ¬ strContains t.message "INVALID_MEDIA_BEFORE_BLOTTATA" ∧
          ¬ isMediaUploadErrorOuter t.message then
        [Event.sinkWrite ⟨"error", "BLOTTATA_FILE_PROCESSING_FAILED", none⟩]
      else []
    ({ t.resultSoFar with
        success := false
        errors := t.resultSoFar.errors ++ [t.message] },
      t.events ++ sinkEvs)

/-! ## Per-channel run and tick (src/unnamed/part_003, lines 147-372) -/

/-- One candidate item as listed by getNewFilesInFolder (createdTime and
webContentLink of the listing are unused by the loop). -/
structure DriveFile where
  id : String
  name : String
deriving DecidableEq, Repr

/-- The per-run counters of processNewFilesForChannel. -/
structure RunTotals where
  processed : Nat
  skipped : Nat
  errors : Nat
deriving DecidableEq, Repr

/-- Oracle for one channel's run: the listing result of
getNewFilesInFolder (which can throw) and the per-file external world. -/
structure ChannelWorld where
  listing : Except String (List DriveFile)
  item : String → ItemWorld

/-- The per-file loop of processNewFilesForChannel (part_003 lines
178-223): skip when the dedup store answers true; otherwise process the
file, and on success mark it processed (the dedup write) and count it.
The loop's own try/catch is unreachable because processBlottataFile and
markFileAsProcessed catch internally and never throw. -/
def processFilesLoop (fb : FirestoreBehavior) (now : Nat) (channel : Channel)
    (itemW : String → ItemWorld) :
    List DriveFile → DedupState → RunTotals → List Event →
      RunTotals × DedupState × List Event
  | [], st, acc, evs => (acc, st, evs)
  | f :: rest, st, acc, evs =>
    let checked := isFileProcessed fb st channel.id f.id
    if checked.1 then
      processFilesLoop fb now channel itemW rest checked.2
        { acc with skipped := acc.skipped + 1 } evs
    else
      let pr := processBlottataFile channel f.id none (itemW f.id)
      if pr.1.success then
        let st2 := markFileAsProcessed fb checked.2 channel.id f.id now
        processFilesLoop fb now channel itemW rest st2
          { acc with processed := acc.processed + 1 }
          (evs ++ pr.2 ++ [Event.markProcessed channel.id f.id])
      else
        processFilesLoop fb now channel itemW rest checked.2
          { acc with errors := acc.errors + 1 } (evs ++ pr.2)

/-- processNewFilesForChannel (part_003 lines 147-240): returns zero
counters when the channel is disabled or has no input folder; a listing
failure is caught at the bottom of the function (errors = 1, nothing
rethrown, so other channels are never blocked); otherwise every listed
file goes through the loop. -/
def processNewFilesForChannel (fb : FirestoreBehavior) (now : Nat)
    (channel : Channel) (w : ChannelWorld) (st : DedupState) :
    RunTotals × DedupState × List Event :=
  if ¬ channel.blotataEnabled ∨ strFalsy channel.driveInputFolderId then
    (⟨0, 0, 0⟩, st, [])
  else
    match w.listing with
    | .error _ => (⟨0, 0, 1⟩, st, [])
    | .ok files => processFilesLoop fb now channel w.item files st ⟨0, 0, 0⟩ []

/-- processBlottataTick (part_003 lines 290-372): fold over the channels,
accumulating totals; the per-channel try/catch is unreachable because
processNewFilesForChannel never throws (its own catch swallows the only
throwing call). -/
def processBlottataTick (fb : FirestoreBehavior) (now : Nat) :
    List (Channel × ChannelWorld) → DedupState → RunTotals × DedupState
  | [], st => (⟨0, 0, 0⟩, st)
  | (ch, w) :: rest, st =>
    let r := processNewFilesForChannel fb now ch w st
    let t := processBlottataTick fb now rest r.2.1
    (⟨r.1.processed + t.1.processed, r.1.skipped + t.1.skipped,
      r.1.errors + t.1.errors⟩, t.2)

/-- A per-target behavior of the external publisher. -/
structure TargetSpec where
  target : String
  succeeds : Bool
  errMsg : Option String
deriving DecidableEq, Repr

/-- Modelled from the spec: blottataPublisherService.publishToAllPlatforms
is code of this repository that is not under src (only its caller
processBlottataFile is).  Spec section 4.4: one independent publish call
per configured target, a failure on one target does not prevent the
others, one TargetOutcome per target; section 7: every failure path has a
corresponding Error Sink write, so each failed target yields exactly one
entry naming that target. -/
def publishToAllPlatformsSpec (targets : List TargetSpec) :
    List PlatformResult × List SinkEntry :=
  (targets.map fun t => ⟨t.target, t.succeeds, t.errMsg⟩,
   (targets.filter fun t => ¬ t.succeeds).map
     fun t => ⟨"error", "PUBLISH_TARGET_FAILED", some t.target⟩)

/-! ## Concrete harness inputs for the theorems -/

/-- A metadata record that passes every precheck. -/
def goodMeta : FileMeta :=
  ⟨some "file-1", some "video.mp4", some "video/mp4", some 1024,
    some "https://drive.example/file-1"⟩

/-- The item world of a file whose metadata, generation and archive calls
behave as given and whose publisher returns `outcomes`. -/
def mkItemWorld (outcomes : List PlatformResult)
    (archiveMove : Except String Unit) : ItemWorld :=
  ⟨.ok goodMeta, .ok ("Title", "Description"), .ok outcomes, archiveMove⟩

/-- Some occurrence of `a` strictly precedes some occurrence of `b`. -/
def beforeB (evs : List Event) (a b : Event) : Bool :=
  match evs with
  | [] => false
  | e :: rest => (e == a && rest.contains b) || beforeB rest a b

/-! ## Fixture inputs used by the theorems -/

/-- An enabled channel with both folders configured (ids free). -/
def mkChannel (cid cname : String) : Channel :=
  ⟨cid, cname, true, some "in-folder", some "arch-folder"⟩

def chGood : Channel := mkChannel "c1" "Chan"

def fileA : DriveFile := ⟨"file-1", "video.mp4"⟩

def okYoutube : PlatformResult := ⟨"youtube", true, none⟩

def failTiktok : PlatformResult := ⟨"tiktok", false, some "boom"⟩

def okInstagram : PlatformResult := ⟨"instagram", true, none⟩

def fbAll : FirestoreBehavior := ⟨true, true, true⟩

def fbOff : FirestoreBehavior := ⟨false, true, true⟩

/-- The per-target error strings the processor accumulates. -/
def perTargetErrorStrings (outcomes : List PlatformResult) : List String :=
  (outcomes.filter fun r => ¬ r.success).map
    fun r => r.platform ++ ": " ++ jsOrElse r.error "Unknown error"

/-- The two-run experiment of the idempotency property: one channel, one
listed file, the same worlds, run twice from an empty dedup store. -/
def twoRuns (fb : FirestoreBehavior) (now : Nat) (cid cname fid : String)
    (outcomes : List PlatformResult) (am : Except String Unit) :
    (RunTotals × DedupState × List Event) × (RunTotals × DedupState × List Event) :=
  let w : ChannelWorld := ⟨.ok [⟨fid, "video.mp4"⟩], fun _ => mkItemWorld outcomes am⟩
  let r1 := processNewFilesForChannel fb now (mkChannel cid cname) w ⟨[], []⟩
  let r2 := processNewFilesForChannel fb now (mkChannel cid cname) w r1.2.1
  (r1, r2)

def targetsABC : List TargetSpec :=
  [⟨"A", true, none⟩, ⟨"B", false, some "boom"⟩, ⟨"C", true, none⟩]

/-- An item world whose Drive metadata resolves to `m`; the remaining
collaborators are immaterial for an item that fails the precheck. -/
def metaWorld (m : FileMeta) : ItemWorld :=
  ⟨.ok m, .ok ("Title", "Description"), .ok [], .ok ()⟩

def metaMissing : FileMeta :=
  ⟨none, some "video.mp4", some "video/mp4", some 5, some "link"⟩

def metaEmpty : FileMeta :=
  ⟨some "f1", some "video.mp4", some "video/mp4", some 0, some "link"⟩

def metaWrongKind : FileMeta :=
  ⟨some "f1", some "pic.png", some "image/png", some 5, some "link"⟩

def wFail : ChannelWorld :=
  ⟨.error "GOOGLE_DRIVE_PERMISSION_DENIED", fun _ => mkItemWorld [] (.ok ())⟩

def sampleOpts : LogErrorOptions :=
  ⟨"u1", some "c1", some "Chan", "blotato_publish", some "warning",
    "SOME_CODE", "message", none⟩

def c8payload : JVal :=
  .obj [("password", .str "x"), ("nested", .obj [("token", .str "y")])]

def c8redactedExpected : JVal :=
  .obj [("password", .str "[REDACTED]"),
    ("nested", .obj [("token", .str "[REDACTED]")])]

def c8opts : LogErrorOptions :=
  ⟨"u1", some "c1", some "Chan", "blotato_publish", some "error",
    "BLOTTATA_FILE_PROCESSING_FAILED", "boom", some c8payload⟩

/-! ## Theorems -/

theorem kvLookup_nil (k : String) : kvLookup [] k = none := rfl

theorem find?_map_overwrite (m : KvMap) (k : String) (v : Nat) :
    ((m.map fun p => if p.1 = k then (k, v) else p).find? fun p => p.1 = k)
      = (m.find? fun p => p.1 = k).map fun _ => (k, v) := by
  induction m with
  | nil => simp
  | cons p rest ih =>
    by_cases h : p.1 = k
    · simp [h, List.find?]
    · simp [h, List.find?, ih]

theorem find?_append_single (m : KvMap) (k : String) (v : Nat)
    (h : (m.find? fun p => p.1 = k) = none) :
    ((m ++ [(k, v)]).find? fun p => p.1 = k) = some (k, v) := by
  induction m with
  | nil => simp
  | cons p rest ih =>
    by_cases hp : p.1 = k
    · rw [List.find?_cons_of_pos _ (by simp [hp])] at h
      cases h
    · rw [List.find?_cons_of_neg _ (by simp [hp])] at h
      rw [List.cons_append, List.find?_cons_of_neg _ (by simp [hp])]
      exact ih h

theorem kvLookup_kvInsert (m : KvMap) (k : String) (v : Nat) :
    kvLookup (kvInsert m k v) k = some v := by
  unfold kvLookup kvInsert
  cases h : (m.find? fun p => p.1 = k) with
  | some p =>
    simp only [h, Option.isSome_some, if_true]
    rw [find?_map_overwrite, h]
    rfl
  | none =>
    simp only [h, Option.isSome_none, Bool.false_eq_true, if_false]
    rw [find?_append_single m k v h]
    simp

theorem goodMeta_valid : validateFileBeforeBlottata (some goodMeta) = (⟨true, none⟩, []) := rfl

theorem processBlottataFile_success_eval (cid cname fid : String)
    (outcomes : List PlatformResult) (am : Except String Unit)
    (hs : ((outcomes.filter fun r => r.success).isEmpty) = false) :
    processBlottataFile (mkChannel cid cname) fid none (mkItemWorld outcomes am) =
      ({ fileId := fid, fileName := "video.mp4", success := true,
         publishedPlatforms := (outcomes.filter fun r => r.success).map (·.platform),
         errors := match am with
           | .ok _ => perTargetErrorStrings outcomes
           | .error m =>
             if (perTargetErrorStrings outcomes).isEmpty then
               ["Archive move failed: " ++ jsOrS m "Unknown error"]
             else perTargetErrorStrings outcomes },
       [Event.publishCall, Event.archiveAttempt]) := by
  rcases hfe : outcomes.filter fun r => r.success with _ | ⟨a, rest⟩
  · rw [hfe] at hs
    simp at hs
  · cases am with
    | ok u =>
      cases u
      simp [processBlottataFile, processBlottataFileBody, mkItemWorld, mkChannel,
        goodMeta, validateFileBeforeBlottata, strFalsy, strStartsWith,
        List.isPrefixOf, jsOrElse, cleanFolderId, perTargetErrorStrings, hfe]
    | error m =>
      simp [processBlottataFile, processBlottataFileBody, mkItemWorld, mkChannel,
        goodMeta, validateFileBeforeBlottata, strFalsy, strStartsWith,
        List.isPrefixOf, jsOrElse, cleanFolderId, perTargetErrorStrings, hfe]
      split_ifs <;> rfl

theorem processBlottataFile_allfail_eval (cid cname fid : String)
    (outcomes : List PlatformResult) (am : Except String Unit)
    (hf : (outcomes.filter fun r => r.success) = []) :
    processBlottataFile (mkChannel cid cname) fid none (mkItemWorld outcomes am) =
      ({ fileId := fid, fileName := "video.mp4", success := false,
         publishedPlatforms := [],
         errors := perTargetErrorStrings outcomes ++
           ["All platforms failed: " ++
             String.intercalate "; " (perTargetErrorStrings outcomes)] },
       [Event.publishCall]) := by
  simp [processBlottataFile, processBlottataFileBody, mkItemWorld, mkChannel,
    goodMeta, validateFileBeforeBlottata, strFalsy, strStartsWith,
    List.isPrefixOf, jsOrElse, cleanFolderId, perTargetErrorStrings, hf,
    userIdKnown]

theorem isFileProcessed_empty (fb : FirestoreBehavior) (c f : String) :
    isFileProcessed fb ⟨[], []⟩ c f = (false, ⟨[], []⟩) := by
  rcases fb with ⟨av, ro, wo⟩
  cases av <;> cases ro <;> simp [isFileProcessed, kvLookup]

theorem mkChannel_enabled (cid cname : String) :
    (mkChannel cid cname).blotataEnabled = true := rfl

theorem mkChannel_input (cid cname : String) :
    (mkChannel cid cname).driveInputFolderId = some "in-folder" := rfl

theorem mkChannel_id (cid cname : String) : (mkChannel cid cname).id = cid := rfl

theorem run_single_success (fb : FirestoreBehavior) (now : Nat)
    (cid cname fid : String) (outcomes : List PlatformResult)
    (am : Except String Unit)
    (hs : ((outcomes.filter fun r => r.success)).isEmpty = false) :
    processNewFilesForChannel fb now (mkChannel cid cname)
      ⟨.ok [⟨fid, "video.mp4"⟩], fun _ => mkItemWorld outcomes am⟩ ⟨[], []⟩ =
      (⟨1, 0, 0⟩, markFileAsProcessed fb ⟨[], []⟩ cid fid now,
        [Event.publishCall, Event.archiveAttempt, Event.markProcessed cid fid]) := by
  simp only [processNewFilesForChannel, mkChannel_enabled, mkChannel_input,
    strFalsy, processFilesLoop, mkChannel_id, isFileProcessed_empty,
    processBlottataFile_success_eval cid cname fid outcomes am hs]
  simp

theorem run_single_skip (fb : FirestoreBehavior) (now : Nat)
    (cid cname fid fname : String) (itemw : String → ItemWorld)
    (st : DedupState)
    (hmem : (kvLookup st.processedFiles (memoryKey cid fid)).isSome = true) :
    processNewFilesForChannel fb now (mkChannel cid cname)
      ⟨.ok [⟨fid, fname⟩], itemw⟩ st = (⟨0, 1, 0⟩, st, []) := by
  simp only [processNewFilesForChannel, mkChannel_enabled, mkChannel_input,
    strFalsy, processFilesLoop, mkChannel_id]
  simp [processFilesLoop, isFileProcessed, hmem]

theorem markFileAsProcessed_memory (fb : FirestoreBehavior) (st : DedupState)
    (c f : String) (now : Nat) :
    (markFileAsProcessed fb st c f now).processedFiles =
      kvInsert st.processedFiles (memoryKey c f) now := by
  rcases fb with ⟨av, ro, wo⟩
  cases av <;> cases wo <;> simp [markFileAsProcessed]

theorem isFileProcessed_memoryHit (fb : FirestoreBehavior) (st : DedupState)
    (c f : String)
    (h : (kvLookup st.processedFiles (memoryKey c f)).isSome = true) :
    isFileProcessed fb st c f = (true, st) := by
  simp [isFileProcessed, h]

/-- C1 (amended): provided the item's first processing succeeds on at least
one target, running the pipeline twice on the same channel and item with an
unchanged source performs exactly one publish attempt and writes exactly
one dedup record; on the second run isFileProcessed answers true, the item
is skipped with no publish call, and the skipped counter is incremented. -/
theorem pipeline_idempotent_for_successful_item (fb : FirestoreBehavior)
    (now : Nat) (cid cname fid : String) (outcomes : List PlatformResult)
    (am : Except String Unit)
    (hs : (outcomes.filter fun r => r.success).isEmpty = false) :
    ((twoRuns fb now cid cname fid outcomes am).1.2.2 ++
        (twoRuns fb now cid cname fid outcomes am).2.2.2).count
        Event.publishCall = 1 ∧
    ((twoRuns fb now cid cname fid outcomes am).1.2.2 ++
        (twoRuns fb now cid cname fid outcomes am).2.2.2).count
        (Event.markProcessed cid fid) = 1 ∧
    kvLookup (twoRuns fb now cid cname fid outcomes am).1.2.1.processedFiles
        (memoryKey cid fid) = some now ∧
    (isFileProcessed fb (twoRuns fb now cid cname fid outcomes am).1.2.1
        cid fid).1 = true ∧
    (twoRuns fb now cid cname fid outcomes am).1.1 = ⟨1, 0, 0⟩ ∧
    (twoRuns fb now cid cname fid outcomes am).2.1 = ⟨0, 1, 0⟩ ∧
    (twoRuns fb now cid cname fid outcomes am).2.2.2.count
        Event.publishCall = 0 := by
  have h1 := run_single_success fb now cid cname fid outcomes am hs
  have hmem : (kvLookup (markFileAsProcessed fb ⟨[], []⟩ cid fid
      now).processedFiles (memoryKey cid fid)).isSome = true := by
    rw [markFileAsProcessed_memory, kvLookup_kvInsert]
    rfl
  have h2 := run_single_skip fb now cid cname fid "video.mp4"
    (fun _ => mkItemWorld outcomes am)
    (markFileAsProcessed fb ⟨[], []⟩ cid fid now) hmem
  have ht : twoRuns fb now cid cname fid outcomes am =
      ((⟨1, 0, 0⟩, markFileAsProcessed fb ⟨[], []⟩ cid fid now,
        [Event.publishCall, Event.archiveAttempt, Event.markProcessed cid fid]),
       (⟨0, 1, 0⟩, markFileAsProcessed fb ⟨[], []⟩ cid fid now, [])) := by
    simp only [twoRuns, h1, h2]
  rw [ht]
  refine ⟨?_, ?_, ?_, ?_, rfl, rfl, rfl⟩
  · simp [List.count_cons, List.count_nil]
  · simp [List.count_cons, List.count_nil]
  · rw [markFileAsProcessed_memory, kvLookup_kvInsert]
  · rw [isFileProcessed_memoryHit fb _ cid fid hmem]

theorem pipeline_idempotent_for_successful_item_witness :
    ((([okYoutube] : List PlatformResult).filter fun r => r.success).isEmpty
        = false) ∧
    (((twoRuns fbAll 5 "c1" "Chan" "file-1" [okYoutube] (.ok ())).1.2.2 ++
        (twoRuns fbAll 5 "c1" "Chan" "file-1" [okYoutube] (.ok ())).2.2.2).count
        Event.publishCall = 1) :=
  ⟨by decide,
    (pipeline_idempotent_for_successful_item fbAll 5 "c1" "Chan" "file-1"
      [okYoutube] (.ok ()) (by decide)).1⟩

/-- C1 counterexample: when every publish target fails, two runs of the
pipeline on the same channel and item perform two publish attempts, write
no dedup record, and the second run skips nothing — refuting the claim as
stated, which promises exactly one publish attempt and one dedup record
for every (channel, item). -/
theorem pipeline_not_idempotent_without_success :
    ¬ (((twoRuns fbAll 5 "c1" "Chan" "file-1" [failTiktok] (.ok ())).1.2.2 ++
        (twoRuns fbAll 5 "c1" "Chan" "file-1" [failTiktok] (.ok ())).2.2.2).count
        Event.publishCall = 1) ∧
    (((twoRuns fbAll 5 "c1" "Chan" "file-1" [failTiktok] (.ok ())).1.2.2 ++
        (twoRuns fbAll 5 "c1" "Chan" "file-1" [failTiktok] (.ok ())).2.2.2).count
        Event.publishCall = 2) ∧
    (((twoRuns fbAll 5 "c1" "Chan" "file-1" [failTiktok] (.ok ())).1.2.2 ++
        (twoRuns fbAll 5 "c1" "Chan" "file-1" [failTiktok] (.ok ())).2.2.2).count
        (Event.markProcessed "c1" "file-1") = 0) ∧
    ((twoRuns fbAll 5 "c1" "Chan" "file-1" [failTiktok] (.ok ())).2.1.skipped
        = 0) ∧
    ((isFileProcessed fbAll
        (twoRuns fbAll 5 "c1" "Chan" "file-1" [failTiktok] (.ok ())).1.2.1
        "c1" "file-1").1 = false) := by decide

/-- C2 (amended): when Firestore is available and its write and read
operations succeed, markFileAsProcessed durably persists the dedup record
(for any non-zero timestamp), and isFileProcessed with an empty in-memory
cache still answers true by reading the durable layer on a cache miss, so
the pair does not re-enter the publish path after a restart. -/
theorem dedup_record_durable_when_firestore_available
    (st : DedupState) (c f : String) (now : Nat) (fb : FirestoreBehavior)
    (hav : fb.available = true) (hw : fb.writeOk = true)
    (hr : fb.readOk = true) (hnz : now ≠ 0) :
    kvLookup (markFileAsProcessed fb st c f now).firestoreDocs
      (memoryKey c f) = some now ∧
    (isFileProcessed fb
      ⟨[], (markFileAsProcessed fb st c f now).firestoreDocs⟩ c f).1 = true := by
  rcases fb with ⟨av, ro, wo⟩
  cases av
  · cases hav
  cases ro
  · cases hr
  cases wo
  · cases hw
  constructor
  · simp [markFileAsProcessed, kvLookup_kvInsert]
  · have hk := kvLookup_kvInsert st.firestoreDocs (memoryKey c f) now
    simp [isFileProcessed, kvLookup_nil, markFileAsProcessed, hk, hnz]

theorem dedup_record_durable_when_firestore_available_witness :
    (fbAll.available = true ∧ fbAll.writeOk = true ∧ fbAll.readOk = true ∧
      (5 : Nat) ≠ 0) ∧
    kvLookup (markFileAsProcessed fbAll ⟨[], []⟩ "c1" "file-1" 5).firestoreDocs
      (memoryKey "c1" "file-1") = some 5 :=
  ⟨⟨rfl, rfl, rfl, by decide⟩,
    (dedup_record_durable_when_firestore_available ⟨[], []⟩ "c1" "file-1" 5
      fbAll rfl rfl rfl (by decide)).1⟩

/-- C2 counterexample: with Firestore unavailable, markFileAsProcessed
writes no durable record; after a restart (empty in-memory cache) the
dedup check answers false and the same pair re-enters the publish path
(the next run performs a publish call for it) — refuting the claim as
stated, which promises durability for every write. -/
theorem dedup_record_lost_when_firestore_unavailable :
    (markFileAsProcessed fbOff ⟨[], []⟩ "c1" "file-1" 5).firestoreDocs = [] ∧
    (isFileProcessed fbOff
      ⟨[], (markFileAsProcessed fbOff ⟨[], []⟩ "c1" "file-1" 5).firestoreDocs⟩
      "c1" "file-1").1 = false ∧
    (processNewFilesForChannel fbOff 9 chGood
      ⟨.ok [fileA], fun _ => mkItemWorld [okYoutube] (.ok ())⟩
      ⟨[], (markFileAsProcessed fbOff ⟨[], []⟩ "c1" "file-1"
        5).firestoreDocs⟩).2.2.count Event.publishCall = 1 := by decide

/-- C3 (amended): for an item that reaches publish with at least one target
success and archive folders configured, the run trace is publish call,
then archive move attempt, then dedup write: the dedup record is written
only after the archive move is attempted (a restart between publish and
the dedup write can therefore precede the dedup write). -/
theorem dedup_written_after_archive_attempt (fb : FirestoreBehavior)
    (now : Nat) (cid cname fid : String) (outcomes : List PlatformResult)
    (am : Except String Unit)
    (hs : (outcomes.filter fun r => r.success).isEmpty = false) :
    (processNewFilesForChannel fb now (mkChannel cid cname)
      ⟨.ok [⟨fid, "video.mp4"⟩], fun _ => mkItemWorld outcomes am⟩
      ⟨[], []⟩).2.2 =
      [Event.publishCall, Event.archiveAttempt, Event.markProcessed cid fid] ∧
    beforeB [Event.publishCall, Event.archiveAttempt,
      Event.markProcessed cid fid] Event.archiveAttempt
      (Event.markProcessed cid fid) = true ∧
    beforeB [Event.publishCall, Event.archiveAttempt,
      Event.markProcessed cid fid] (Event.markProcessed cid fid)
      Event.archiveAttempt = false := by
  have h1 := run_single_success fb now cid cname fid outcomes am hs
  rw [h1]
  refine ⟨rfl, ?_, ?_⟩ <;> simp [beforeB]

theorem dedup_written_after_archive_attempt_witness :
    ((([okYoutube] : List PlatformResult).filter fun r => r.success).isEmpty
        = false) ∧
    (processNewFilesForChannel fbAll 5 (mkChannel "c1" "Chan")
      ⟨.ok [⟨"file-1", "video.mp4"⟩], fun _ => mkItemWorld [okYoutube] (.ok ())⟩
      ⟨[], []⟩).2.2 =
      [Event.publishCall, Event.archiveAttempt,
        Event.markProcessed "c1" "file-1"] :=
  ⟨by decide,
    (dedup_written_after_archive_attempt fbAll 5 "c1" "Chan" "file-1"
      [okYoutube] (.ok ()) (by decide)).1⟩

/-- C3 counterexample: in a concrete successful run the archive move is
attempted before the dedup record is written — no dedup-write event
precedes the archive attempt — refuting the claimed ordering
(markProcessed after first success but before the archive move). -/
theorem dedup_write_not_before_archive :
    (processNewFilesForChannel fbAll 5 chGood
      ⟨.ok [fileA], fun _ => mkItemWorld [okYoutube] (.ok ())⟩ ⟨[], []⟩).2.2 =
      [Event.publishCall, Event.archiveAttempt,
        Event.markProcessed "c1" "file-1"] ∧
    beforeB (processNewFilesForChannel fbAll 5 chGood
      ⟨.ok [fileA], fun _ => mkItemWorld [okYoutube] (.ok ())⟩ ⟨[], []⟩).2.2
      (Event.markProcessed "c1" "file-1") Event.archiveAttempt = false ∧
    beforeB (processNewFilesForChannel fbAll 5 chGood
      ⟨.ok [fileA], fun _ => mkItemWorld [okYoutube] (.ok ())⟩ ⟨[], []⟩).2.2
      Event.archiveAttempt (Event.markProcessed "c1" "file-1") = true := by
  decide

theorem any_success_eq_not_filter_isEmpty (outcomes : List PlatformResult) :
    (outcomes.any fun r => r.success)
      = !(outcomes.filter fun r => r.success).isEmpty := by
  induction outcomes with
  | nil => rfl
  | cons a rest ih =>
    by_cases h : a.success <;>
      simp [List.any_cons, List.filter_cons, h, ih]

/-- C4: the overall success flag is true iff at least one target outcome
succeeded, and the published-platform list is exactly the targets whose
outcome succeeded; in the concrete 3-target instance with B failing and
A, C succeeding, success is true, the successful targets are A and C, and
the spec-modelled publisher records exactly one Error Sink entry, for B. -/
theorem fanout_aggregation (cid cname fid : String)
    (outcomes : List PlatformResult) (am : Except String Unit) :
    ((processBlottataFile (mkChannel cid cname) fid none
        (mkItemWorld outcomes am)).1.success
      = outcomes.any fun r => r.success) ∧
    ((processBlottataFile (mkChannel cid cname) fid none
        (mkItemWorld outcomes am)).1.publishedPlatforms
      = (outcomes.filter fun r => r.success).map fun r => r.platform) ∧
    (((publishToAllPlatformsSpec targetsABC).1.any fun r => r.success)
      = true) ∧
    ((processBlottataFile (mkChannel "c1" "Chan") "file-1" none
        (mkItemWorld (publishToAllPlatformsSpec targetsABC).1
          (.ok ()))).1.success = true) ∧
    ((processBlottataFile (mkChannel "c1" "Chan") "file-1" none
        (mkItemWorld (publishToAllPlatformsSpec targetsABC).1
          (.ok ()))).1.publishedPlatforms = ["A", "C"]) ∧
    ((publishToAllPlatformsSpec targetsABC).2
      = [⟨"error", "PUBLISH_TARGET_FAILED", some "B"⟩]) := by
  have hcase :
      ((processBlottataFile (mkChannel cid cname) fid none
          (mkItemWorld outcomes am)).1.success
        = outcomes.any fun r => r.success) ∧
      ((processBlottataFile (mkChannel cid cname) fid none
          (mkItemWorld outcomes am)).1.publishedPlatforms
        = (outcomes.filter fun r => r.success).map fun r => r.platform) := by
    rcases hfe : outcomes.filter fun r => r.success with _ | ⟨a, rest⟩
    · rw [processBlottataFile_allfail_eval cid cname fid outcomes am hfe]
      constructor
      · simp [any_success_eq_not_filter_isEmpty, hfe]
      · simp [hfe]
    · have hne : (outcomes.filter fun r => r.success).isEmpty = false := by
        rw [hfe]
        rfl
      rw [processBlottataFile_success_eval cid cname fid outcomes am hne]
      constructor
      · simp [any_success_eq_not_filter_isEmpty, hne]
      · simp [hfe]
  exact ⟨hcase.1, hcase.2, by decide, by decide, by decide, by decide⟩

/-- C5: when zero publish targets succeed, the item's processing is a
terminal failure: the result has success = false, the run records one
error, no archive move is attempted and no dedup record is written (the
run's only event is the publish call and the dedup state is untouched),
and on the next poll the item re-enters the publish path (a publish call
happens again). -/
theorem total_publish_failure_no_dedup (fb : FirestoreBehavior) (now : Nat)
    (cid cname fid : String) (outcomes : List PlatformResult)
    (am : Except String Unit)
    (hf : (outcomes.filter fun r => r.success) = []) :
    ((processBlottataFile (mkChannel cid cname) fid none
        (mkItemWorld outcomes am)).1.success = false) ∧
    (processNewFilesForChannel fb now (mkChannel cid cname)
        ⟨.ok [⟨fid, "video.mp4"⟩], fun _ => mkItemWorld outcomes am⟩
        ⟨[], []⟩
      = (⟨0, 0, 1⟩, ⟨[], []⟩, [Event.publishCall])) ∧
    ((processNewFilesForChannel fb now (mkChannel cid cname)
        ⟨.ok [⟨fid, "video.mp4"⟩], fun _ => mkItemWorld outcomes am⟩
        ((processNewFilesForChannel fb now (mkChannel cid cname)
          ⟨.ok [⟨fid, "video.mp4"⟩], fun _ => mkItemWorld outcomes am⟩
          ⟨[], []⟩).2.1)).2.2.count Event.publishCall = 1) := by
  have hpr := processBlottataFile_allfail_eval cid cname fid outcomes am hf
  have hrun : processNewFilesForChannel fb now (mkChannel cid cname)
      ⟨.ok [⟨fid, "video.mp4"⟩], fun _ => mkItemWorld outcomes am⟩ ⟨[], []⟩ =
      (⟨0, 0, 1⟩, ⟨[], []⟩, [Event.publishCall]) := by
    simp only [processNewFilesForChannel, mkChannel_enabled, mkChannel_input,
      strFalsy, processFilesLoop, mkChannel_id, isFileProcessed_empty, hpr]
    simp
  refine ⟨?_, hrun, ?_⟩
  · rw [hpr]
  · rw [hrun]
    simp only []
    rw [hrun]
    simp

theorem total_publish_failure_no_dedup_witness :
    ((([failTiktok] : List PlatformResult).filter fun r => r.success) = []) ∧
    ((processBlottataFile (mkChannel "c1" "Chan") "file-1" none
        (mkItemWorld [failTiktok] (.ok ()))).1.success = false) :=
  ⟨by decide,
    (total_publish_failure_no_dedup fbAll 5 "c1" "Chan" "file-1" [failTiktok]
      (.ok ()) (by decide)).1⟩

/-- C6: validation checks run in order — existence (truthy id), then
size > 0, then video mime kind (prefix match) — short-circuiting on the
first failure; each failure yields exactly one warning-severity Error Sink
entry with a distinct reason code (file_not_found / empty_file /
not_video), and an invalid item is skipped with no publish call, its
result carrying the failure reason. -/
theorem validation_order_and_skip (m : FileMeta) (ch : Channel)
    (fid : String) (userId : Option String) :
    (strFalsy m.id = true →
      validateFileBeforeBlottata (some m) =
        (⟨false, some reasonNotFoundText⟩,
          [⟨"warning", invalidMediaCode, some "file_not_found"⟩])) ∧
    (strFalsy m.id = false → m.size.getD 0 = 0 →
      validateFileBeforeBlottata (some m) =
        (⟨false, some reasonEmptyText⟩,
          [⟨"warning", invalidMediaCode, some "empty_file"⟩])) ∧
    (strFalsy m.id = false → m.size.getD 0 ≠ 0 →
      strStartsWith (m.mimeType.getD "") "video/" = false →
      validateFileBeforeBlottata (some m) =
        (⟨false, some (reasonNotVideoText (m.mimeType.getD ""))⟩,
          [⟨"warning", invalidMediaCode, some "not_video"⟩])) ∧
    (("file_not_found" : String) ≠ "empty_file" ∧
      ("empty_file" : String) ≠ "not_video" ∧
      ("file_not_found" : String) ≠ "not_video") ∧
    (∀ w : ItemWorld, w.meta = .ok m →
      (validateFileBeforeBlottata (some m)).1.valid = false →
      (processBlottataFile ch fid userId w).2.count Event.publishCall = 0 ∧
      (processBlottataFile ch fid userId w).2 =
        (validateFileBeforeBlottata (some m)).2.map Event.sinkWrite ∧
      (processBlottataFile ch fid userId w).1.success = false ∧
      (processBlottataFile ch fid userId w).1.errors =
        [jsOrElse (validateFileBeforeBlottata (some m)).1.reason
          "Файл не прошёл предварительную проверку"]) := by
  refine ⟨?_, ?_, ?_, by decide, ?_⟩
  · intro h
    simp [validateFileBeforeBlottata, h]
  · intro h1 h2
    simp [validateFileBeforeBlottata, h1, h2]
  · intro h1 h2 h3
    simp [validateFileBeforeBlottata, h1, h2, h3]
  · intro w hw hinv
    rcases w with ⟨wm, wg, wp, wa⟩
    simp only at hw
    subst hw
    simp only [processBlottataFile, processBlottataFileBody, hinv,
      Bool.false_eq_true, not_false_iff, if_true]
    simp [List.count_eq_zero, List.mem_map]

theorem validation_order_and_skip_witness :
    (strFalsy metaMissing.id = true ∧
      validateFileBeforeBlottata (some metaMissing) =
        (⟨false, some reasonNotFoundText⟩,
          [⟨"warning", invalidMediaCode, some "file_not_found"⟩])) ∧
    (strFalsy metaEmpty.id = false ∧ metaEmpty.size.getD 0 = 0 ∧
      validateFileBeforeBlottata (some metaEmpty) =
        (⟨false, some reasonEmptyText⟩,
          [⟨"warning", invalidMediaCode, some "empty_file"⟩])) ∧
    (strFalsy metaWrongKind.id = false ∧ metaWrongKind.size.getD 0 ≠ 0 ∧
      strStartsWith (metaWrongKind.mimeType.getD "") "video/" = false ∧
      validateFileBeforeBlottata (some metaWrongKind) =
        (⟨false, some (reasonNotVideoText (metaWrongKind.mimeType.getD ""))⟩,
          [⟨"warning", invalidMediaCode, some "not_video"⟩])) ∧
    (processBlottataFile chGood "file-1" none (metaWorld metaEmpty)).2.count
      Event.publishCall = 0 :=
  ⟨⟨by decide,
      (validation_order_and_skip metaMissing chGood "file-1" none).1
        (by decide)⟩,
    ⟨by decide, by decide,
      (validation_order_and_skip metaEmpty chGood "file-1" none).2.1
        (by decide) (by decide)⟩,
    ⟨by decide, by decide, by decide,
      (validation_order_and_skip metaWrongKind chGood "file-1" none).2.2.1
        (by decide) (by decide) (by decide)⟩,
    ((validation_order_and_skip metaEmpty chGood "file-1" none).2.2.2.2
      (metaWorld metaEmpty) rfl (by decide)).1⟩

/-- C7 (amended): when at least one target published and the archive move
then throws, the result's success flag stays true, and the archive-failure
message is appended to the result's error list as one additional entry
only when that list was empty (no per-target failures); when per-target
errors are already present, no additional entry is recorded. -/
theorem archive_failure_isolation (cid cname fid : String)
    (outcomes : List PlatformResult) (moveMsg : String)
    (hs : (outcomes.filter fun r => r.success).isEmpty = false) :
    ((processBlottataFile (mkChannel cid cname) fid none
        (mkItemWorld outcomes (.error moveMsg))).1.success = true) ∧
    ((processBlottataFile (mkChannel cid cname) fid none
        (mkItemWorld outcomes (.error moveMsg))).1.errors =
      if (perTargetErrorStrings outcomes).isEmpty then
        ["Archive move failed: " ++ jsOrS moveMsg "Unknown error"]
      else perTargetErrorStrings outcomes) := by
  rw [processBlottataFile_success_eval cid cname fid outcomes
    (.error moveMsg) hs]
  constructor
  · rfl
  · split_ifs with h <;> simp [h]

theorem archive_failure_isolation_witness :
    ((([okYoutube] : List PlatformResult).filter fun r => r.success).isEmpty
        = false) ∧
    ((processBlottataFile (mkChannel "c1" "Chan") "file-1" none
        (mkItemWorld [okYoutube] (.error "disk"))).1.success = true) :=
  ⟨by decide,
    (archive_failure_isolation "c1" "Chan" "file-1" [okYoutube] "disk"
      (by decide)).1⟩

/-- C7 counterexample: with two targets of which one failed (so the error
list already holds one per-target entry) and an archive move that throws,
the result keeps success = true but its error list still has exactly one
entry — no additional entry is recorded — refuting the claim that exactly
one additional entry is always recorded for the archive failure. -/
theorem archive_failure_adds_no_entry_when_errors_present :
    ((processBlottataFile chGood "file-1" none
        (mkItemWorld [okYoutube, failTiktok] (.error "disk"))).1.success
      = true) ∧
    ((processBlottataFile chGood "file-1" none
        (mkItemWorld [okYoutube, failTiktok] (.error "disk"))).1.errors
      = ["tiktok: boom"]) ∧
    ¬ ((processBlottataFile chGood "file-1" none
        (mkItemWorld [okYoutube, failTiktok] (.error "disk"))).1.errors.length
      = 2) := by decide

/-- C9: a listing (Monitor) failure for one channel is caught inside
processNewFilesForChannel, counted as one error with the dedup state
untouched, and the tick processes the remaining channels exactly as it
would have processed them without the failing channel. -/
theorem channel_isolation (fb : FirestoreBehavior) (now : Nat) (x : Channel)
    (wx : ChannelWorld) (e : String) (rest : List (Channel × ChannelWorld))
    (st : DedupState)
    (hx : x.blotataEnabled = true)
    (hin : strFalsy x.driveInputFolderId = false)
    (hl : wx.listing = .error e) :
    processNewFilesForChannel fb now x wx st = (⟨0, 0, 1⟩, st, []) ∧
    processBlottataTick fb now ((x, wx) :: rest) st =
      (⟨(processBlottataTick fb now rest st).1.processed,
        (processBlottataTick fb now rest st).1.skipped,
        (processBlottataTick fb now rest st).1.errors + 1⟩,
       (processBlottataTick fb now rest st).2) := by
  have h1 : processNewFilesForChannel fb now x wx st = (⟨0, 0, 1⟩, st, []) := by
    simp [processNewFilesForChannel, hx, hin, hl]
  refine ⟨h1, ?_⟩
  simp [processBlottataTick, h1, Nat.add_comm]

theorem channel_isolation_witness :
    (chGood.blotataEnabled = true ∧
      strFalsy chGood.driveInputFolderId = false ∧
      wFail.listing = .error "GOOGLE_DRIVE_PERMISSION_DENIED") ∧
    processNewFilesForChannel fbAll 5 chGood wFail ⟨[], []⟩ =
      (⟨0, 0, 1⟩, ⟨[], []⟩, []) :=
  ⟨⟨rfl, rfl, rfl⟩,
    (channel_isolation fbAll 5 chGood wFail "GOOGLE_DRIVE_PERMISSION_DENIED"
      [] ⟨[], []⟩ rfl rfl rfl).1⟩

/-- C10: logError never propagates a failure to its caller: for every
input it returns normally; when the Error Sink store is unavailable or
the write to it fails, the failure is swallowed with the store unchanged,
and when the write succeeds exactly the built record is appended. -/
theorem logError_never_throws (w : SinkWorld) (devMode : Bool)
    (opts : LogErrorOptions) (store : List StoredErrorLog) :
    (∃ s, logError w devMode opts store = .ok s) ∧
    (w.available = false → logError w devMode opts store = .ok store) ∧
    (w.writeOk = false → logError w devMode opts store = .ok store) ∧
    (w.available = true → w.writeOk = true →
      logError w devMode opts store =
        .ok (store ++ [mkStoredErrorLog devMode opts])) := by
  rcases w with ⟨av, wo⟩
  cases av <;> cases wo <;> simp [logError, logErrorBody]

theorem logError_never_throws_witness :
    ((⟨false, true⟩ : SinkWorld).available = false) ∧
    logError ⟨false, true⟩ false sampleOpts [] = .ok [] :=
  ⟨rfl, (logError_never_throws ⟨false, true⟩ false sampleOpts []).2.1 rfl⟩

/-- C8 (code bug): the spec's own example payload reaches persistence
unredacted — serializeError returns it as-is through the
"already serialized" early return (the payload has no message and no
stack field), so the stored entry still holds the plaintext password and
token — although the redaction routine cleanObject, had it been applied,
would produce exactly the redacted object the claim describes. -/
theorem redaction_bypassed_for_plain_payload :
    serializeError c8payload false = c8payload ∧
    getFieldOpt (serializeError c8payload false) "password"
      = some (.str "x") ∧
    (∃ entry, logError ⟨true, true⟩ false c8opts [] = .ok [entry] ∧
      entry.details = some c8payload ∧
      getFieldOpt (entry.details.getD .null) "password" = some (.str "x") ∧
      getFieldOpt ((getFieldOpt (entry.details.getD .null) "nested").getD
        .null) "token" = some (.str "y")) ∧
    cleanObject c8payload = c8redactedExpected ∧
    JVal.str "x" ≠ JVal.str "[REDACTED]" := by
  refine ⟨rfl, rfl, ⟨mkStoredErrorLog false c8opts, rfl, rfl, rfl, rfl⟩,
    rfl, ?_⟩
  intro h
  injection h with h2
  exact absurd h2 (by decide)
